import Mathlib

/-!
# CMakeOpenGLSetup: the debug adapter and the bootstrap sequence

A shallow embedding of `src/openglErrorReporting.cpp` and `src/main.cpp`.

* Text written to standard output is a `String`; `std::println` appends a
  line feed to what it prints.
* `GLenum` and `unsigned int` arguments are natural numbers (every theorem
  below holds for all of them, so the 32-bit range needs no side condition).
* The numeric values of the `GL_DEBUG_*` macros come from the OpenGL header,
  which is not part of the sources; they are a parameter (`DebugEnums`).
* A run of `main` is the sequence of calls it issues into GLFW, glad,
  stb_image and OpenGL, with the arguments of the source, together with its
  exit status.  What the backend answers and what the user does are an input
  (`Env`).  Calls the backend makes back into the program while it processes
  events (`framebuffer_size_callback`, `glDebugOutput`) happen inside the
  backend call and are not part of the sequence of `main`.
* The render loop is bounded by a fuel argument; the theorems show that
  enough fuel exists whenever the close flag is eventually set, and that the
  run does not depend on the fuel.
-/

set_option linter.unusedVariables false

namespace CMakeOpenGLSetup

/-! ## openglErrorReporting.cpp -/

/-- The `GL_DEBUG_*` macros named by the three `switch` statements of
`glDebugOutput`.  Their values are defined by the OpenGL header, which is not
among the sources, so they are taken as a parameter. -/
structure DebugEnums where
  GL_DEBUG_SOURCE_API : Nat
  GL_DEBUG_SOURCE_WINDOW_SYSTEM : Nat
  GL_DEBUG_SOURCE_SHADER_COMPILER : Nat
  GL_DEBUG_SOURCE_THIRD_PARTY : Nat
  GL_DEBUG_SOURCE_APPLICATION : Nat
  GL_DEBUG_SOURCE_OTHER : Nat
  GL_DEBUG_TYPE_ERROR : Nat
  GL_DEBUG_TYPE_DEPRECATED_BEHAVIOR : Nat
  GL_DEBUG_TYPE_UNDEFINED_BEHAVIOR : Nat
  GL_DEBUG_TYPE_PORTABILITY : Nat
  GL_DEBUG_TYPE_PERFORMANCE : Nat
  GL_DEBUG_TYPE_MARKER : Nat
  GL_DEBUG_TYPE_PUSH_GROUP : Nat
  GL_DEBUG_TYPE_POP_GROUP : Nat
  GL_DEBUG_TYPE_OTHER : Nat
  GL_DEBUG_SEVERITY_HIGH : Nat
  GL_DEBUG_SEVERITY_MEDIUM : Nat
  GL_DEBUG_SEVERITY_LOW : Nat
  GL_DEBUG_SEVERITY_NOTIFICATION : Nat

namespace DebugEnums

/-- The case labels of `switch (source)`, in the order of the source text. -/
def sources (H : DebugEnums) : List Nat :=
  [H.GL_DEBUG_SOURCE_API, H.GL_DEBUG_SOURCE_WINDOW_SYSTEM, H.GL_DEBUG_SOURCE_SHADER_COMPILER,
   H.GL_DEBUG_SOURCE_THIRD_PARTY, H.GL_DEBUG_SOURCE_APPLICATION, H.GL_DEBUG_SOURCE_OTHER]

/-- The case labels of `switch (type)`, in the order of the source text. -/
def types (H : DebugEnums) : List Nat :=
  [H.GL_DEBUG_TYPE_ERROR, H.GL_DEBUG_TYPE_DEPRECATED_BEHAVIOR, H.GL_DEBUG_TYPE_UNDEFINED_BEHAVIOR,
   H.GL_DEBUG_TYPE_PORTABILITY, H.GL_DEBUG_TYPE_PERFORMANCE, H.GL_DEBUG_TYPE_MARKER,
   H.GL_DEBUG_TYPE_PUSH_GROUP, H.GL_DEBUG_TYPE_POP_GROUP, H.GL_DEBUG_TYPE_OTHER]

/-- The case labels of `switch (severity)`, in the order of the source text. -/
def severities (H : DebugEnums) : List Nat :=
  [H.GL_DEBUG_SEVERITY_HIGH, H.GL_DEBUG_SEVERITY_MEDIUM, H.GL_DEBUG_SEVERITY_LOW,
   H.GL_DEBUG_SEVERITY_NOTIFICATION]

/-- A header is well formed when the case labels of each `switch` are pairwise
distinct; C++ rejects a `switch` with a repeated case label. -/
def WellFormed (H : DebugEnums) : Prop :=
  H.sources.Nodup ∧ H.types.Nodup ∧ H.severities.Nodup

instance (H : DebugEnums) : Decidable H.WellFormed := by
  unfold WellFormed; infer_instance

end DebugEnums

/-- The values the Khronos registry gives the macros (those of `glad.h`). -/
def khronos : DebugEnums where
  GL_DEBUG_SOURCE_API := 0x8246
  GL_DEBUG_SOURCE_WINDOW_SYSTEM := 0x8247
  GL_DEBUG_SOURCE_SHADER_COMPILER := 0x8248
  GL_DEBUG_SOURCE_THIRD_PARTY := 0x8249
  GL_DEBUG_SOURCE_APPLICATION := 0x824A
  GL_DEBUG_SOURCE_OTHER := 0x824B
  GL_DEBUG_TYPE_ERROR := 0x824C
  GL_DEBUG_TYPE_DEPRECATED_BEHAVIOR := 0x824D
  GL_DEBUG_TYPE_UNDEFINED_BEHAVIOR := 0x824E
  GL_DEBUG_TYPE_PORTABILITY := 0x824F
  GL_DEBUG_TYPE_PERFORMANCE := 0x8250
  GL_DEBUG_TYPE_MARKER := 0x8268
  GL_DEBUG_TYPE_PUSH_GROUP := 0x8269
  GL_DEBUG_TYPE_POP_GROUP := 0x826A
  GL_DEBUG_TYPE_OTHER := 0x8251
  GL_DEBUG_SEVERITY_HIGH := 0x9146
  GL_DEBUG_SEVERITY_MEDIUM := 0x9147
  GL_DEBUG_SEVERITY_LOW := 0x9148
  GL_DEBUG_SEVERITY_NOTIFICATION := 0x826B

/-- What `switch (source)` of `glDebugOutput` prints (lines 12-19, without the
`std::println()` that follows it); nothing when no case matches. -/
def printSource (H : DebugEnums) (source : Nat) : String :=
  if source = H.GL_DEBUG_SOURCE_API then "Source: API"
  else if source = H.GL_DEBUG_SOURCE_WINDOW_SYSTEM then "Source: Window System"
  else if source = H.GL_DEBUG_SOURCE_SHADER_COMPILER then "Source: Shader Compiler"
  else if source = H.GL_DEBUG_SOURCE_THIRD_PARTY then "Source: Third Party"
  else if source = H.GL_DEBUG_SOURCE_APPLICATION then "Source: Application"
  else if source = H.GL_DEBUG_SOURCE_OTHER then "Source: Other"
  else ""

/-- What `switch (type)` of `glDebugOutput` prints (lines 21-31). -/
def printType (H : DebugEnums) (type : Nat) : String :=
  if type = H.GL_DEBUG_TYPE_ERROR then "Type: Error"
  else if type = H.GL_DEBUG_TYPE_DEPRECATED_BEHAVIOR then "Type: Deprecated Behavior"
  else if type = H.GL_DEBUG_TYPE_UNDEFINED_BEHAVIOR then "Type: Undefined Behavior"
  else if type = H.GL_DEBUG_TYPE_PORTABILITY then "Type: Portability"
  else if type = H.GL_DEBUG_TYPE_PERFORMANCE then "Type: Performance"
  else if type = H.GL_DEBUG_TYPE_MARKER then "Type: Marker"
  else if type = H.GL_DEBUG_TYPE_PUSH_GROUP then "Type: Push Group"
  else if type = H.GL_DEBUG_TYPE_POP_GROUP then "Type: Pop Group"
  else if type = H.GL_DEBUG_TYPE_OTHER then "Type: Other"
  else ""

/-- What `switch (severity)` of `glDebugOutput` prints (lines 33-38). -/
def printSeverity (H : DebugEnums) (severity : Nat) : String :=
  if severity = H.GL_DEBUG_SEVERITY_HIGH then "Severity: high"
  else if severity = H.GL_DEBUG_SEVERITY_MEDIUM then "Severity: medium"
  else if severity = H.GL_DEBUG_SEVERITY_LOW then "Severity: low"
  else if severity = H.GL_DEBUG_SEVERITY_NOTIFICATION then "Severity: notification"
  else ""

/-- The text `glDebugOutput` writes to standard output.  `length` and
`userParam` are accepted and, as in the source, never read. -/
def glDebugOutput (H : DebugEnums) (source type id severity : Nat) (length : Int)
    (message : String) (userParam : Nat) : String :=
  -- Ignore non-significant errors/warning codes
  if id = 131169 ∨ id = 131185 ∨ id = 131218 ∨ id = 131204 then ""
  else
    "Debug message (" ++ message ++ ")" ++ "\n"
      ++ printSource H source ++ "\n"
      ++ printType H type ++ "\n"
      ++ printSeverity H severity ++ "\n"

/-! ### Vocabulary of the specification for the debug adapter -/

/-- The suppression set of the specification. -/
def suppressedIds : List Nat := [131169, 131185, 131218, 131204]

/-- The labels the specification lists for the sources, in its order. -/
def sourceLabels : List String :=
  ["API", "Window System", "Shader Compiler", "Third Party", "Application", "Other"]

/-- The labels the specification lists for the types, in its order. -/
def typeLabels : List String :=
  ["Error", "Deprecated Behavior", "Undefined Behavior", "Portability", "Performance",
   "Marker", "Push Group", "Pop Group", "Other"]

/-- The labels the specification lists for the severities, in its order. -/
def severityLabels : List String := ["high", "medium", "low", "notification"]

/-- Number of line terminators in a text, that is, the number of lines of a
text in which every line is terminated. -/
def lineCount (s : String) : Nat := s.data.count '\n'

/-- A text that fits on one line: it holds no line terminator. -/
def SingleLine (s : String) : Prop := '\n' ∉ s.data

instance (s : String) : Decidable (SingleLine s) := by
  unfold SingleLine; infer_instance

/-- The text `needle` occurs in `hay` as a contiguous substring. -/
def Contains (hay needle : String) : Prop := needle.data <:+: hay.data


/-! ## main.cpp -/

/-- Named constants of the GLFW and OpenGL headers that `main.cpp` passes to
the backend.  Only their identity matters to the call sequence, so they are
kept symbolic. -/
inductive Const
  | GLFW_CONTEXT_VERSION_MAJOR | GLFW_CONTEXT_VERSION_MINOR | GLFW_OPENGL_DEBUG_CONTEXT
  | GLFW_OPENGL_PROFILE | GLFW_OPENGL_CORE_PROFILE | GLFW_KEY_ESCAPE
  | GL_CONTEXT_FLAGS | GL_DEBUG_OUTPUT | GL_DEBUG_OUTPUT_SYNCHRONOUS | GL_DONT_CARE | GL_TRUE
  | GL_FRONT_AND_BACK | GL_FILL | GL_VERTEX_SHADER | GL_FRAGMENT_SHADER
  | GL_COMPILE_STATUS | GL_LINK_STATUS | GL_VALIDATE_STATUS
  | GL_ARRAY_BUFFER | GL_ELEMENT_ARRAY_BUFFER | GL_STATIC_DRAW | GL_FLOAT | GL_FALSE
  | GL_COLOR_BUFFER_BIT | GL_TRIANGLES | GL_UNSIGNED_INT
  deriving DecidableEq, Repr

/-- The objects `main` holds, named after the variables that hold them. -/
inductive Obj
  | window | vertexShader | fragmentShader | shaderProgram | VAO | VBO | EBO
  deriving DecidableEq, Repr

/-- The value argument of `glfwWindowHint`. -/
inductive Value
  | int (n : Int)
  | bool (b : Bool)
  | const (c : Const)
  deriving DecidableEq, Repr

/-- The global arrays whose storage is handed to `glBufferData`. -/
inductive Data
  | triangleVertices | indices
  deriving DecidableEq, Repr

/-- One observable action of the program: a call into GLFW, glad, stb_image or
OpenGL with the arguments the source passes, a line printed to standard
output, or `exit`. -/
inductive Call
  | glfwInit
  | glfwWindowHint (hint : Const) (value : Value)
  | glfwCreateWindow (width height : Int) (title : String)
  | glfwTerminate
  | glfwMakeContextCurrent (w : Obj)
  | glfwSetFramebufferSizeCallback (w : Obj)
  | stbi_load (file : String) (channels : Nat)
  | glfwSetWindowIcon (w : Obj) (count : Nat)
  | stbi_image_free
  | gladLoadGLLoader
  | glGetIntegerv (pname : Const)
  | glEnable (cap : Const)
  | glDebugMessageCallback
  | glDebugMessageControl (source type severity : Const) (count : Nat) (enabled : Const)
  | glViewport (x y width height : Int)
  | glClearColor (r g b a : ℚ)
  | glPolygonMode (face mode : Const)
  | glCreateShader (type : Const)
  | glShaderSource (shader : Obj) (count : Nat)
  | glCompileShader (shader : Obj)
  | glGetShaderiv (shader : Obj) (pname : Const)
  | glGetShaderInfoLog (shader : Obj) (bufSize : Nat)
  | glCreateProgram
  | glAttachShader (program shader : Obj)
  | glLinkProgram (program : Obj)
  | glValidateProgram (program : Obj)
  | glGetProgramiv (program : Obj) (pname : Const)
  | glGetProgramInfoLog (program : Obj) (bufSize : Nat)
  | glDeleteShader (shader : Obj)
  | glGenVertexArrays (n : Nat) (arrays : Obj)
  | glGenBuffers (n : Nat) (buffers : Obj)
  | glBindVertexArray (array : Obj)
  | glBindBuffer (target : Const) (buffer : Option Obj)
  | glBufferData (target : Const) (size : Nat) (data : Data) (usage : Const)
  | glVertexAttribPointer (index size : Nat) (type normalized : Const) (stride pointer : Nat)
  | glEnableVertexAttribArray (index : Nat)
  | glUseProgram (program : Obj)
  | glfwWindowShouldClose (w : Obj)
  | glfwGetKey (w : Obj) (key : Const)
  | glfwSetWindowShouldClose (w : Obj) (value : Bool)
  | glClear (mask : Const)
  | glDrawElements (mode : Const) (count : Nat) (type : Const) (indices : Nat)
  | glfwPollEvents
  | glfwSwapBuffers (w : Obj)
  | glDeleteVertexArrays (n : Nat) (arrays : Obj)
  | glDeleteBuffers (n : Nat) (buffers : Obj)
  | glDeleteProgram (program : Obj)
  | glfwDestroyWindow (w : Obj)
  | println (text : String)
  | exit (status : Int)
  deriving Repr

/-- Everything outside the source text that a run of `main` depends on: the
build flag, what each fallible backend call answers, and what the user does
while the render loop runs. -/
structure Env where
  /-- Whether the program was compiled with `DEBUG` defined. -/
  DEBUG : Bool
  /-- The value of the `<cstdlib>` constant passed to `exit`. -/
  EXIT_FAILURE : Int
  /-- The build-time resource directory, `RESOURCES_PATH`. -/
  RESOURCES_PATH : String
  /-- Whether `glfwInit()` succeeds. -/
  glfwInit : Bool
  /-- Whether `glfwCreateWindow` returns a window (not a null pointer). -/
  glfwCreateWindow : Bool
  /-- Whether `gladLoadGLLoader` succeeds. -/
  gladLoadGLLoader : Bool
  /-- Whether the context flags have `GL_CONTEXT_FLAG_DEBUG_BIT` set. -/
  debugBit : Bool
  /-- Value of `GL_COMPILE_STATUS` of the vertex shader, and its info log. -/
  vertexCompileStatus : Bool
  vertexInfoLog : String
  /-- Value of `GL_COMPILE_STATUS` of the fragment shader, and its info log. -/
  fragmentCompileStatus : Bool
  fragmentInfoLog : String
  /-- Value of `GL_LINK_STATUS` of the program, and its info log. -/
  linkStatus : Bool
  linkInfoLog : String
  /-- Value of `GL_VALIDATE_STATUS` of the program, and its info log. -/
  validateStatus : Bool
  validateInfoLog : String
  /-- Whether `glfwGetKey(w, GLFW_KEY_ESCAPE)` answers `GLFW_PRESS` in
  iteration `n` of the render loop. -/
  escapePressed : Nat → Bool
  /-- Whether `glfwPollEvents()` of iteration `n` delivers a close request of
  the operating system, which sets the close flag of the window. -/
  closeRequested : Nat → Bool

def wWIDTH : Int := 800
def wHEIGHT : Int := 600

/-- The claims fix `sizeof(GLfloat)` at 4 bytes. -/
def sizeofGLfloat : Nat := 4

/-- The claims fix `sizeof(GLuint)` at 4 bytes. -/
def sizeofGLuint : Nat := 4

/-- The vertex array of `main.cpp`; each decimal literal is kept as the
rational number it denotes. -/
def triangleVertices : List ℚ := [
  --  X  Y        R   G   B
  0.0,  0.8,  1.0, 0.0, 0.0,         -- top center
  0.5, 0.0,  0.0, 1.0, 0.0,          -- center right
  -0.5, 0.0,  0.0, 0.0, 1.0,    -- center left
  0.0,  -0.8,  1.0, 1.0, 0.0    -- bottom center
]

def indices : List Nat := [
  0, 1, 2, -- first triangle
  2, 1, 3  -- second triangle
]

/-- The calls `framebuffer_size_callback` makes when GLFW invokes it. -/
def framebuffer_size_callback (w : Obj) (width height : Int) : List Call :=
  [.glViewport 0 0 width height]

/-- The calls of `enableReportGlErrors` (openglErrorReporting.cpp). -/
def enableReportGlErrors : List Call :=
  [.glEnable .GL_DEBUG_OUTPUT,
   .glEnable .GL_DEBUG_OUTPUT_SYNCHRONOUS,
   .glDebugMessageCallback,
   .glDebugMessageControl .GL_DONT_CARE .GL_DONT_CARE .GL_DONT_CARE 0 .GL_TRUE]

/-- The calls of `init_glfw`, and the status passed to `exit` when it ends
the process instead of returning. -/
def init_glfw (env : Env) : List Call × Option Int :=
  if !env.glfwInit then
    ([.glfwInit, .println "Error initializing glfw", .exit env.EXIT_FAILURE],
      some env.EXIT_FAILURE)
  else
    ([.glfwInit]
      ++ (if env.DEBUG then
            [.glfwWindowHint .GLFW_CONTEXT_VERSION_MAJOR (.int 4),
             .glfwWindowHint .GLFW_CONTEXT_VERSION_MINOR (.int 3),
             .glfwWindowHint .GLFW_OPENGL_DEBUG_CONTEXT (.bool true)]
          else
            [.glfwWindowHint .GLFW_CONTEXT_VERSION_MAJOR (.int 3),
             .glfwWindowHint .GLFW_CONTEXT_VERSION_MINOR (.int 3)])
      ++ [.glfwWindowHint .GLFW_OPENGL_PROFILE (.const .GLFW_OPENGL_CORE_PROFILE)],
      none)

/-- The calls of `processInputs` in iteration `n`, and the close flag of the
window after it. -/
def processInputs (env : Env) (n : Nat) (shouldClose : Bool) : List Call × Bool :=
  if env.escapePressed n then
    ([.glfwGetKey .window .GLFW_KEY_ESCAPE, .glfwSetWindowShouldClose .window true], true)
  else
    ([.glfwGetKey .window .GLFW_KEY_ESCAPE], shouldClose)

/-- The body of the `while` loop of `main` (lines 221-230) in iteration `n`:
the calls it issues, and the close flag of the window after it. -/
def loopBody (env : Env) (n : Nat) (shouldClose : Bool) : List Call × Bool :=
  -- Process inputs
  let inputs := processInputs env n shouldClose
  (inputs.1
    -- Render
    ++ [.glClear .GL_COLOR_BUFFER_BIT,
        .glDrawElements .GL_TRIANGLES 6 .GL_UNSIGNED_INT 0,
    -- Check and call events and swap buffers
        .glfwPollEvents,
        .glfwSwapBuffers .window],
   inputs.2 || env.closeRequested n)

/-- The `while (!glfwWindowShouldClose(window))` loop of `main`, from
iteration `n` on with the given close flag.  `fuel` bounds the number of
times the loop condition is evaluated; `none` means the bound was reached
with the loop still running. -/
def renderLoop (env : Env) : Nat → Nat → Bool → Option (List Call)
  | 0, _, _ => none
  | fuel + 1, n, shouldClose =>
    if shouldClose then some [.glfwWindowShouldClose .window]
    else
      match renderLoop env fuel (n + 1) (loopBody env n shouldClose).2 with
      | none => none
      | some rest =>
        some (.glfwWindowShouldClose .window :: ((loopBody env n shouldClose).1 ++ rest))

/-- Window setup of `main` after the window exists (lines 91-98). -/
def windowSetup (env : Env) : List Call :=
  [.glfwMakeContextCurrent .window,
   .glfwSetFramebufferSizeCallback .window,
   -- Load icon
   .stbi_load (env.RESOURCES_PATH ++ "triangle-64.png") 4,
   .glfwSetWindowIcon .window 1,
   .stbi_image_free]

/-- Debug output and global configuration of `main` (lines 106-116). -/
def globalConfig (env : Env) : List Call :=
  [.glGetIntegerv .GL_CONTEXT_FLAGS]
    ++ (if env.debugBit then enableReportGlErrors else [])
    ++ [.glViewport 0 0 wWIDTH wHEIGHT,
        .glClearColor 0.0 0.0 0.0 1.0,
        .glPolygonMode .GL_FRONT_AND_BACK .GL_FILL]

/-- Creation and compilation of one shader up to the status query. -/
def compileShader (shader : Obj) (type : Const) : List Call :=
  [.glCreateShader type,
   .glShaderSource shader 1,
   .glCompileShader shader,
   .glGetShaderiv shader .GL_COMPILE_STATUS]

/-- Creation and linking of the program up to the status query (lines 145-149). -/
def linkProgram : List Call :=
  [.glCreateProgram,
   .glAttachShader .shaderProgram .vertexShader,
   .glAttachShader .shaderProgram .fragmentShader,
   .glLinkProgram .shaderProgram,
   .glGetProgramiv .shaderProgram .GL_LINK_STATUS]

/-- Validation of the program up to the status query (lines 157-158). -/
def validateProgram : List Call :=
  [.glValidateProgram .shaderProgram,
   .glGetProgramiv .shaderProgram .GL_VALIDATE_STATUS]

/-- Vertex data and attribute setup of `main`, and the state bound for the main
loop (lines 165-217). -/
def vertexSetup : List Call :=
  [.glDeleteShader .vertexShader,
   .glDeleteShader .fragmentShader,
   .glGenVertexArrays 1 .VAO,
   .glGenBuffers 1 .VBO,
   .glGenBuffers 1 .EBO,
   -- Bind the VAO first then bind buffers to it
   .glBindVertexArray .VAO,
   -- VertexBufferObject
   .glBindBuffer .GL_ARRAY_BUFFER (some .VBO),
   .glBufferData .GL_ARRAY_BUFFER (triangleVertices.length * sizeofGLfloat)
      .triangleVertices .GL_STATIC_DRAW,
   -- ElementBufferObject
   .glBindBuffer .GL_ELEMENT_ARRAY_BUFFER (some .EBO),
   .glBufferData .GL_ELEMENT_ARRAY_BUFFER (indices.length * sizeofGLuint)
      .indices .GL_STATIC_DRAW,
   -- Configure attribute aPosition
   .glVertexAttribPointer 0 2 .GL_FLOAT .GL_FALSE (5 * sizeofGLfloat) 0,
   .glEnableVertexAttribArray 0,
   -- Configure attribute aColor
   .glVertexAttribPointer 1 3 .GL_FLOAT .GL_FALSE (5 * sizeofGLfloat) (2 * sizeofGLfloat),
   .glEnableVertexAttribArray 1,
   .glBindBuffer .GL_ARRAY_BUFFER none,
   -- Main loop
   .glUseProgram .shaderProgram,
   .glBindVertexArray .VAO]

/-- The teardown of `main` (lines 234-240). -/
def teardown : List Call :=
  [.glDeleteVertexArrays 1 .VAO,
   .glDeleteBuffers 1 .VBO,
   .glDeleteBuffers 1 .EBO,
   .glDeleteProgram .shaderProgram,
   .glfwDestroyWindow .window,
   .glfwTerminate]

/-- A finished run of the program: the calls it made, in order, and the exit
status (the argument of `exit`, or the value `main` returns). -/
structure Run where
  calls : List Call
  status : Int
  deriving Repr

/-- The function `main`.  `fuel` bounds the render loop (see `renderLoop`);
the result is `none` only when the loop was still running at the bound.
Control reaching the end of `main` returns 0. -/
def main (env : Env) (fuel : Nat) : Option Run :=
  match init_glfw env with
  | (c0, some status) => some ⟨c0, status⟩
  | (c0, none) =>
  let c1 := c0 ++ [.glfwCreateWindow wWIDTH wHEIGHT "OpenGL"]
  if !env.glfwCreateWindow then
    some ⟨c1 ++ [.println "Error initializing window", .glfwTerminate], -1⟩
  else
  let c2 := c1 ++ windowSetup env ++ [.gladLoadGLLoader]
  if !env.gladLoadGLLoader then
    some ⟨c2 ++ [.println "Failed to initialize GLAD"], -1⟩
  else
  -- Vertex shader
  let c3 := c2 ++ globalConfig env ++ compileShader .vertexShader .GL_VERTEX_SHADER
  if !env.vertexCompileStatus then
    some ⟨c3 ++ [.glGetShaderInfoLog .vertexShader 512,
      .println ("ERROR::SHADER::VERTEX::COMPILATION_FAILED\n" ++ env.vertexInfoLog)], -1⟩
  else
  -- Fragment shader
  let c4 := c3 ++ compileShader .fragmentShader .GL_FRAGMENT_SHADER
  if !env.fragmentCompileStatus then
    some ⟨c4 ++ [.glGetShaderInfoLog .fragmentShader 512,
      .println ("ERROR::SHADER::FRAGMENT::COMPILATION_FAILED\n" ++ env.fragmentInfoLog)], -1⟩
  else
  -- Create program
  let c5 := c4 ++ linkProgram
  if !env.linkStatus then
    some ⟨c5 ++ [.glGetProgramInfoLog .shaderProgram 512,
      .println ("ERROR::PROGRAM::LINKING_FAILED\n" ++ env.linkInfoLog)], -1⟩
  else
  -- Check whether the program is healthy
  let c6 := c5 ++ validateProgram
  if !env.validateStatus then
    some ⟨c6 ++ [.glGetProgramInfoLog .shaderProgram 512,
      .println ("ERROR::PROGRAM::VALIDATION_FAILED\n" ++ env.validateInfoLog)], -1⟩
  else
  match renderLoop env fuel 0 false with
  | none => none
  | some loop => some ⟨c6 ++ vertexSetup ++ loop ++ teardown, 0⟩

/-! ### Vocabulary of the specification for the bootstrap -/

/-- The mesh vertex number `v`: the 5 consecutive floats of `triangleVertices`
that start at float `5 * v`. -/
def vertexAt (v : Nat) : List ℚ := (triangleVertices.drop (5 * v)).take 5

/-- An index list read as consecutive triples (a trailing rest of fewer than
three entries is dropped). -/
def triangles : List Nat → List (Nat × Nat × Nat)
  | a :: b :: c :: rest => (a, b, c) :: triangles rest
  | _ => []

/-- The layout one `glVertexAttribPointer` call declares: attribute number,
component count, stride in bytes and byte offset of the first component. -/
structure Attrib where
  index : Nat
  size : Nat
  stride : Nat
  pointer : Nat
  deriving DecidableEq, Repr

/-- The attribute layout a call declares, if it is `glVertexAttribPointer`. -/
def Call.attrib? : Call → Option Attrib
  | .glVertexAttribPointer index size _ _ stride pointer => some ⟨index, size, stride, pointer⟩
  | _ => none

/-- The byte count and the array a call uploads to the buffer bound to
`target`, if it is such a `glBufferData`. -/
def Call.upload? (target : Const) : Call → Option (Nat × Data)
  | .glBufferData t size data _ => if t = target then some (size, data) else none
  | _ => none

/-- The index count and the byte offset into the index buffer of a draw, if
the call is `glDrawElements`. -/
def Call.draw? : Call → Option (Nat × Nat)
  | .glDrawElements _ count _ offset => some (count, offset)
  | _ => none

/-- The seven fallible steps of the bootstrap. -/
inductive Step
  | glfwInit | glfwCreateWindow | gladLoadGLLoader
  | vertexCompile | fragmentCompile | link | validate
  deriving DecidableEq, Repr

/-- The fallible steps in program order. -/
def Step.all : List Step :=
  [.glfwInit, .glfwCreateWindow, .gladLoadGLLoader, .vertexCompile, .fragmentCompile,
   .link, .validate]

/-- Position of a step in program order. -/
def Step.index : Step → Nat
  | .glfwInit => 0
  | .glfwCreateWindow => 1
  | .gladLoadGLLoader => 2
  | .vertexCompile => 3
  | .fragmentCompile => 4
  | .link => 5
  | .validate => 6

/-- Whether a step succeeds in an environment. -/
def Env.succeeds (env : Env) : Step → Bool
  | .glfwInit => env.glfwInit
  | .glfwCreateWindow => env.glfwCreateWindow
  | .gladLoadGLLoader => env.gladLoadGLLoader
  | .vertexCompile => env.vertexCompileStatus
  | .fragmentCompile => env.fragmentCompileStatus
  | .link => env.linkStatus
  | .validate => env.validateStatus

/-- The first step, in program order, that fails; `none` when none fails. -/
def firstFailure (env : Env) : Option Step :=
  Step.all.find? (fun s => !env.succeeds s)

/-- The step whose success or failure a call reports: the three fallible
library calls themselves, and the four status queries. -/
def Call.step? : Call → Option Step
  | .glfwInit => some .glfwInit
  | .glfwCreateWindow _ _ _ => some .glfwCreateWindow
  | .gladLoadGLLoader => some .gladLoadGLLoader
  | .glGetShaderiv .vertexShader .GL_COMPILE_STATUS => some .vertexCompile
  | .glGetShaderiv .fragmentShader .GL_COMPILE_STATUS => some .fragmentCompile
  | .glGetProgramiv .shaderProgram .GL_LINK_STATUS => some .link
  | .glGetProgramiv .shaderProgram .GL_VALIDATE_STATUS => some .validate
  | _ => none

/-- The steps a run went through, in the order it did. -/
def stepsAttempted (calls : List Call) : List Step := calls.filterMap Call.step?

/-- Whether a call belongs to the render loop (its condition or its body). -/
def Call.inRenderLoop : Call → Bool
  | .glfwWindowShouldClose _ => true
  | .glfwGetKey _ _ => true
  | .glfwSetWindowShouldClose _ _ => true
  | .glClear _ => true
  | .glDrawElements _ _ _ _ => true
  | .glfwPollEvents => true
  | .glfwSwapBuffers _ => true
  | _ => false

/-- Two environments that differ at most in what the fallible steps answer and
in what the user does during the render loop. -/
def Env.SameSetting (e e' : Env) : Prop :=
  e.DEBUG = e'.DEBUG ∧ e.EXIT_FAILURE = e'.EXIT_FAILURE ∧ e.RESOURCES_PATH = e'.RESOURCES_PATH
    ∧ e.debugBit = e'.debugBit ∧ e.vertexInfoLog = e'.vertexInfoLog
    ∧ e.fragmentInfoLog = e'.fragmentInfoLog ∧ e.linkInfoLog = e'.linkInfoLog
    ∧ e.validateInfoLog = e'.validateInfoLog

/-- The close flag is set at some time: in some iteration the escape key is
down or the operating system asks the window to close. -/
def Env.EventuallyCloses (env : Env) : Prop :=
  ∃ n, env.escapePressed n = true ∨ env.closeRequested n = true

/-- The object a call acquires (creates), if any. -/
def Call.acquires : Call → Option Obj
  | .glfwCreateWindow _ _ _ => some .window
  | .glCreateShader .GL_VERTEX_SHADER => some .vertexShader
  | .glCreateShader .GL_FRAGMENT_SHADER => some .fragmentShader
  | .glCreateProgram => some .shaderProgram
  | .glGenVertexArrays _ o => some o
  | .glGenBuffers _ o => some o
  | _ => none

/-- The object a call releases (deletes or destroys), if any. -/
def Call.releases : Call → Option Obj
  | .glDeleteShader o => some o
  | .glDeleteVertexArrays _ o => some o
  | .glDeleteBuffers _ o => some o
  | .glDeleteProgram o => some o
  | .glfwDestroyWindow o => some o
  | _ => none

/-- The objects a call sequence has acquired and not released, in the order
of their acquisition. -/
def held (calls : List Call) : List Obj :=
  (calls.filterMap Call.acquires).filter (fun o => !(calls.filterMap Call.releases).contains o)

/-- A sample environment: release build, every step succeeds, and the escape
key is found pressed in the second iteration of the render loop. -/
def sampleEnv : Env where
  DEBUG := false
  EXIT_FAILURE := 1
  RESOURCES_PATH := "resources/"
  glfwInit := true
  glfwCreateWindow := true
  gladLoadGLLoader := true
  debugBit := false
  vertexCompileStatus := true
  vertexInfoLog := ""
  fragmentCompileStatus := true
  fragmentInfoLog := ""
  linkStatus := true
  linkInfoLog := ""
  validateStatus := true
  validateInfoLog := ""
  escapePressed := fun n => decide (n = 1)
  closeRequested := fun _ => false

/-- The calls of a run in which no step fails, up to the vertex setup: the
steps of `main` in program order without their failure branches. -/
def bootstrapCalls (env : Env) : List Call :=
  (init_glfw env).1 ++ [.glfwCreateWindow wWIDTH wHEIGHT "OpenGL"] ++ windowSetup env
    ++ [.gladLoadGLLoader] ++ globalConfig env
    ++ compileShader .vertexShader .GL_VERTEX_SHADER
    ++ compileShader .fragmentShader .GL_FRAGMENT_SHADER
    ++ linkProgram ++ validateProgram

/-! ## Theorems: the debug adapter -/

theorem lineCount_append (s t : String) : lineCount (s ++ t) = lineCount s + lineCount t := by
  simp [lineCount]

theorem printSource_singleLine (H : DebugEnums) (source : Nat) :
    SingleLine (printSource H source) := by
  unfold printSource
  repeat' split
  all_goals decide

theorem printType_singleLine (H : DebugEnums) (type : Nat) :
    SingleLine (printType H type) := by
  unfold printType
  repeat' split
  all_goals decide

theorem printSeverity_singleLine (H : DebugEnums) (severity : Nat) :
    SingleLine (printSeverity H severity) := by
  unfold printSeverity
  repeat' split
  all_goals decide

theorem lineCount_singleLine (s : String) (h : SingleLine s) : lineCount s = 0 := by
  unfold lineCount
  exact List.count_eq_zero.mpr h

/-- The three lines after the message line hold exactly three terminators. -/
theorem lineCount_classification (H : DebugEnums) (source type severity : Nat) :
    lineCount (printSource H source ++ "\n" ++ printType H type ++ "\n"
      ++ printSeverity H severity ++ "\n") = 3 := by
  have h1 := lineCount_singleLine _ (printSource_singleLine H source)
  have h2 := lineCount_singleLine _ (printType_singleLine H type)
  have h3 := lineCount_singleLine _ (printSeverity_singleLine H severity)
  have hn : lineCount "\n" = 1 := by decide
  simp only [lineCount_append, h1, h2, h3, hn]

theorem glDebugOutput_of_not_suppressed (H : DebugEnums) (source type id severity : Nat)
    (length : Int) (message : String) (userParam : Nat) (hid : id ∉ suppressedIds) :
    glDebugOutput H source type id severity length message userParam
      = "Debug message (" ++ message ++ ")\n"
        ++ (printSource H source ++ "\n" ++ printType H type ++ "\n"
          ++ printSeverity H severity ++ "\n") := by
  simp only [suppressedIds, List.mem_cons, List.mem_singleton, List.not_mem_nil, or_false,
    not_or] at hid
  obtain ⟨h1, h2, h3, h4⟩ := hid
  simp only [glDebugOutput, h1, h2, h3, h4, or_self, if_false]
  apply String.ext
  simp [String.data_append]

theorem lineCount_glDebugOutput (H : DebugEnums) (source type id severity : Nat)
    (length : Int) (message : String) (userParam : Nat) (hid : id ∉ suppressedIds) :
    lineCount (glDebugOutput H source type id severity length message userParam)
      = lineCount message + 4 := by
  rw [glDebugOutput_of_not_suppressed H source type id severity length message userParam hid]
  have hp : lineCount "Debug message (" = 0 := by decide
  have hq : lineCount ")\n" = 1 := by decide
  rw [lineCount_append, lineCount_classification, lineCount_append, lineCount_append, hp, hq]
  omega

/-- C1. For every source, type, severity, length, message and userParam, a
message whose id is in the suppression set 131169, 131185, 131218, 131204
makes `glDebugOutput` write nothing: the text it produces is empty. -/
theorem glDebugOutput_suppressed (H : DebugEnums) (source type id severity : Nat)
    (length : Int) (message : String) (userParam : Nat) (hid : id ∈ suppressedIds) :
    glDebugOutput H source type id severity length message userParam = "" := by
  simp only [suppressedIds, List.mem_cons, List.mem_singleton, List.not_mem_nil,
    or_false] at hid
  simp only [glDebugOutput, hid, if_true]

theorem glDebugOutput_suppressed_witness :
    (131185 : Nat) ∈ suppressedIds
      ∧ glDebugOutput khronos khronos.GL_DEBUG_SOURCE_API khronos.GL_DEBUG_TYPE_ERROR 131185
          khronos.GL_DEBUG_SEVERITY_HIGH 14 "buffer detail" 0 = "" :=
  ⟨by decide, glDebugOutput_suppressed khronos _ _ 131185 _ 14 "buffer detail" 0 (by decide)⟩

/-- C2. For every id outside the suppression set and every source, type and
severity value, recognised or not, the output of `glDebugOutput` is not empty,
contains the message text, and consists of the message line followed by
exactly three classification lines: the source line, the type line and the
severity line, each of them a single terminated line. -/
theorem glDebugOutput_reports (H : DebugEnums) (source type id severity : Nat)
    (length : Int) (message : String) (userParam : Nat) (hid : id ∉ suppressedIds) :
    glDebugOutput H source type id severity length message userParam ≠ ""
      ∧ Contains (glDebugOutput H source type id severity length message userParam) message
      ∧ glDebugOutput H source type id severity length message userParam
          = "Debug message (" ++ message ++ ")\n"
            ++ (printSource H source ++ "\n" ++ printType H type ++ "\n"
              ++ printSeverity H severity ++ "\n")
      ∧ SingleLine (printSource H source) ∧ SingleLine (printType H type)
      ∧ SingleLine (printSeverity H severity)
      ∧ lineCount (printSource H source ++ "\n" ++ printType H type ++ "\n"
          ++ printSeverity H severity ++ "\n") = 3 := by
  have hout := glDebugOutput_of_not_suppressed H source type id severity length message
    userParam hid
  refine ⟨?_, ?_, hout, printSource_singleLine H source, printType_singleLine H type,
    printSeverity_singleLine H severity, lineCount_classification H source type severity⟩
  · intro h
    have hlen := congrArg lineCount h
    rw [lineCount_glDebugOutput H source type id severity length message userParam hid] at hlen
    have h0 : lineCount "" = 0 := by decide
    omega
  · rw [hout]
    unfold Contains
    simp only [String.data_append]
    refine ⟨"Debug message (".data, (")\n" ++ (printSource H source ++ "\n"
      ++ printType H type ++ "\n" ++ printSeverity H severity ++ "\n")).data, ?_⟩
    simp [String.data_append]

theorem glDebugOutput_reports_witness :
    glDebugOutput khronos 7 7 7 7 1 "x" 0 ≠ ""
      ∧ Contains (glDebugOutput khronos 7 7 7 7 1 "x" 0) "x"
      ∧ glDebugOutput khronos 7 7 7 7 1 "x" 0
          = "Debug message (" ++ "x" ++ ")\n"
            ++ (printSource khronos 7 ++ "\n" ++ printType khronos 7 ++ "\n"
              ++ printSeverity khronos 7 ++ "\n")
      ∧ SingleLine (printSource khronos 7) ∧ SingleLine (printType khronos 7)
      ∧ SingleLine (printSeverity khronos 7)
      ∧ lineCount (printSource khronos 7 ++ "\n" ++ printType khronos 7 ++ "\n"
          ++ printSeverity khronos 7 ++ "\n") = 3 :=
  glDebugOutput_reports khronos 7 7 7 7 1 "x" 0 (by decide)

theorem printSource_label (H : DebugEnums) (hH : H.WellFormed) (source : Nat) (label : String)
    (h : (source, label) ∈ H.sources.zip sourceLabels) :
    printSource H source = "Source: " ++ label := by
  have hd := hH.1
  simp only [DebugEnums.sources, List.nodup_cons, List.mem_cons, List.mem_singleton,
    List.not_mem_nil, not_or, or_false] at hd
  simp only [DebugEnums.sources, sourceLabels, List.zip_cons_cons, List.zip_nil_right,
    List.mem_cons, List.mem_singleton, List.not_mem_nil, or_false, Prod.mk.injEq] at h
  casesm* _ ∧ _
  unfold printSource
  rcases h with h | h | h | h | h | h <;> obtain ⟨rfl, rfl⟩ := h <;>
    (repeat' (split <;> try (first
      | (rename_i hc; exact absurd hc.symm (by assumption))
      | (rename_i hc; exact absurd rfl hc)))) <;> rfl

set_option maxHeartbeats 1000000 in
theorem printType_label (H : DebugEnums) (hH : H.WellFormed) (type : Nat) (label : String)
    (h : (type, label) ∈ H.types.zip typeLabels) :
    printType H type = "Type: " ++ label := by
  have hd := hH.2.1
  simp only [DebugEnums.types, List.nodup_cons, List.mem_cons, List.mem_singleton,
    List.not_mem_nil, not_or, or_false] at hd
  simp only [DebugEnums.types, typeLabels, List.zip_cons_cons, List.zip_nil_right,
    List.mem_cons, List.mem_singleton, List.not_mem_nil, or_false, Prod.mk.injEq] at h
  casesm* _ ∧ _
  unfold printType
  rcases h with h | h | h | h | h | h | h | h | h <;> obtain ⟨rfl, rfl⟩ := h <;>
    (repeat' (split <;> try (first
      | (rename_i hc; exact absurd hc.symm (by assumption))
      | (rename_i hc; exact absurd rfl hc)))) <;> rfl

theorem printSeverity_label (H : DebugEnums) (hH : H.WellFormed) (severity : Nat)
    (label : String) (h : (severity, label) ∈ H.severities.zip severityLabels) :
    printSeverity H severity = "Severity: " ++ label := by
  have hd := hH.2.2
  simp only [DebugEnums.severities, List.nodup_cons, List.mem_cons, List.mem_singleton,
    List.not_mem_nil, not_or, or_false] at hd
  simp only [DebugEnums.severities, severityLabels, List.zip_cons_cons, List.zip_nil_right,
    List.mem_cons, List.mem_singleton, List.not_mem_nil, or_false, Prod.mk.injEq] at h
  casesm* _ ∧ _
  unfold printSeverity
  rcases h with h | h | h | h <;> obtain ⟨rfl, rfl⟩ := h <;>
    (repeat' (split <;> try (first
      | (rename_i hc; exact absurd hc.symm (by assumption))
      | (rename_i hc; exact absurd rfl hc)))) <;> rfl

/-- In a list zipped with a duplicate-free list of labels, entries with the
same label are the same entry. -/
theorem zip_label_injective {α β : Type} :
    ∀ (xs : List α) (ys : List β), ys.Nodup → ∀ a b l, (a, l) ∈ xs.zip ys → (b, l) ∈ xs.zip ys →
      a = b
  | [], _, _, _, _, _, h, _ => by simp at h
  | _ :: _, [], _, _, _, _, h, _ => by simp at h
  | x :: xs, y :: ys, hn, a, b, l, ha, hb => by
    rw [List.nodup_cons] at hn
    simp only [List.zip_cons_cons, List.mem_cons, Prod.mk.injEq] at ha hb
    rcases ha with ⟨rfl, rfl⟩ | ha <;> rcases hb with ⟨rfl, hb2⟩ | hb
    · rfl
    · exact absurd (List.of_mem_zip hb).2 hn.1
    · exact absurd (List.of_mem_zip ha).2 (hb2 ▸ hn.1)
    · exact zip_label_injective xs ys hn.2 a b l ha hb

theorem exists_zip_of_mem {α β : Type} :
    ∀ (xs : List α) (ys : List β), xs.length = ys.length → ∀ a ∈ xs, ∃ b, (a, b) ∈ xs.zip ys
  | [], _, _, _, h => by simp at h
  | _ :: _, [], hlen, _, _ => by simp at hlen
  | x :: xs, y :: ys, hlen, a, h => by
    simp only [List.mem_cons] at h
    rcases h with rfl | h
    · exact ⟨y, by simp⟩
    · obtain ⟨b, hb⟩ := exists_zip_of_mem xs ys (by simpa using hlen) a h
      exact ⟨b, by simp [hb]⟩

theorem append_left_cancel_string (p a b : String) (h : p ++ a = p ++ b) : a = b := by
  have := congrArg String.data h
  simp only [String.data_append, List.append_cancel_left_eq] at this
  exact String.ext this

/-- When a printing function gives every listed value its label behind a
fixed prefix and the labels are pairwise distinct, distinct listed values are
printed differently. -/
theorem labels_distinct {f : Nat → String} {pre : String} (xs : List Nat) (ys : List String)
    (hlen : xs.length = ys.length) (hn : ys.Nodup)
    (hf : ∀ a l, (a, l) ∈ xs.zip ys → f a = pre ++ l) :
    ∀ a ∈ xs, ∀ b ∈ xs, a ≠ b → f a ≠ f b := by
  intro a ha b hb hne heq
  obtain ⟨l, hl⟩ := exists_zip_of_mem xs ys hlen a ha
  obtain ⟨l', hl'⟩ := exists_zip_of_mem xs ys hlen b hb
  rw [hf a l hl, hf b l' hl'] at heq
  have hll : l = l' := append_left_cancel_string _ _ _ heq
  subst hll
  exact hne (zip_label_injective xs ys hn a b l hl hl')

/-- C3. For every id outside the suppression set and every combination of one
of the 6 defined sources, one of the 9 defined types and one of the 4 defined
severities, the output is the message (the line `Debug message (<text>)`)
first, followed by exactly three lines in this order: the source line with
that source's label, the type line with that type's label and the severity
line with that severity's label, the labels being those the specification
lists; within one category distinct enum values get distinct labels. -/
theorem glDebugOutput_labels (H : DebugEnums) (hH : H.WellFormed)
    (source type id severity : Nat) (length : Int) (message : String) (userParam : Nat)
    (sourceLabel typeLabel severityLabel : String) (hid : id ∉ suppressedIds)
    (hs : (source, sourceLabel) ∈ H.sources.zip sourceLabels)
    (ht : (type, typeLabel) ∈ H.types.zip typeLabels)
    (hv : (severity, severityLabel) ∈ H.severities.zip severityLabels) :
    glDebugOutput H source type id severity length message userParam
        = "Debug message (" ++ message ++ ")\n"
          ++ ("Source: " ++ sourceLabel ++ "\n" ++ ("Type: " ++ typeLabel) ++ "\n"
            ++ ("Severity: " ++ severityLabel) ++ "\n")
      ∧ lineCount ("Source: " ++ sourceLabel ++ "\n" ++ ("Type: " ++ typeLabel) ++ "\n"
            ++ ("Severity: " ++ severityLabel) ++ "\n") = 3
      ∧ (H.sources.length = 6 ∧ sourceLabels.length = 6)
      ∧ (H.types.length = 9 ∧ typeLabels.length = 9)
      ∧ (H.severities.length = 4 ∧ severityLabels.length = 4)
      ∧ (∀ s ∈ H.sources, ∀ s' ∈ H.sources, s ≠ s' → printSource H s ≠ printSource H s')
      ∧ (∀ t ∈ H.types, ∀ t' ∈ H.types, t ≠ t' → printType H t ≠ printType H t')
      ∧ (∀ v ∈ H.severities, ∀ v' ∈ H.severities, v ≠ v' →
          printSeverity H v ≠ printSeverity H v') := by
  have e1 := printSource_label H hH source sourceLabel hs
  have e2 := printType_label H hH type typeLabel ht
  have e3 := printSeverity_label H hH severity severityLabel hv
  refine ⟨?_, ?_, ⟨rfl, rfl⟩, ⟨rfl, rfl⟩, ⟨rfl, rfl⟩, ?_, ?_, ?_⟩
  · rw [glDebugOutput_of_not_suppressed H source type id severity length message userParam hid,
      e1, e2, e3]
  · rw [← e1, ← e2, ← e3]
    exact lineCount_classification H source type severity
  · exact labels_distinct H.sources sourceLabels rfl (by decide)
      (printSource_label H hH)
  · exact labels_distinct H.types typeLabels rfl (by decide)
      (printType_label H hH)
  · exact labels_distinct H.severities severityLabels rfl (by decide)
      (printSeverity_label H hH)

theorem glDebugOutput_labels_witness :
    khronos.WellFormed ∧ (5 : Nat) ∉ suppressedIds
      ∧ (khronos.GL_DEBUG_SOURCE_SHADER_COMPILER, "Shader Compiler")
          ∈ khronos.sources.zip sourceLabels
      ∧ (khronos.GL_DEBUG_TYPE_POP_GROUP, "Pop Group") ∈ khronos.types.zip typeLabels
      ∧ (khronos.GL_DEBUG_SEVERITY_NOTIFICATION, "notification")
          ∈ khronos.severities.zip severityLabels
      ∧ glDebugOutput khronos khronos.GL_DEBUG_SOURCE_SHADER_COMPILER
          khronos.GL_DEBUG_TYPE_POP_GROUP 5 khronos.GL_DEBUG_SEVERITY_NOTIFICATION 2 "hi" 0
        = "Debug message (" ++ "hi" ++ ")\n"
          ++ ("Source: " ++ "Shader Compiler" ++ "\n" ++ ("Type: " ++ "Pop Group") ++ "\n"
            ++ ("Severity: " ++ "notification") ++ "\n") :=
  ⟨by decide, by decide, by decide, by decide, by decide,
    (glDebugOutput_labels khronos (by decide) _ _ 5 _ 2 "hi" 0 "Shader Compiler" "Pop Group"
      "notification" (by decide) (by decide) (by decide) (by decide)).1⟩

theorem printSource_unrecognised (H : DebugEnums) (source : Nat) (h : source ∉ H.sources) :
    printSource H source = "" := by
  simp only [DebugEnums.sources, List.mem_cons, List.mem_singleton, List.not_mem_nil,
    or_false, not_or] at h
  obtain ⟨h1, h2, h3, h4, h5, h6⟩ := h
  simp only [printSource, h1, h2, h3, h4, h5, h6, if_false]

theorem printType_unrecognised (H : DebugEnums) (type : Nat) (h : type ∉ H.types) :
    printType H type = "" := by
  simp only [DebugEnums.types, List.mem_cons, List.mem_singleton, List.not_mem_nil,
    or_false, not_or] at h
  obtain ⟨h1, h2, h3, h4, h5, h6, h7, h8, h9⟩ := h
  simp only [printType, h1, h2, h3, h4, h5, h6, h7, h8, h9, if_false]

theorem printSeverity_unrecognised (H : DebugEnums) (severity : Nat)
    (h : severity ∉ H.severities) : printSeverity H severity = "" := by
  simp only [DebugEnums.severities, List.mem_cons, List.mem_singleton, List.not_mem_nil,
    or_false, not_or] at h
  obtain ⟨h1, h2, h3, h4⟩ := h
  simp only [printSeverity, h1, h2, h3, h4, if_false]

/-- C4, as stated, fails: with source 0, which is none of the defined sources,
the source line is still written, as an empty line; the output has as many
lines as for the recognised source `GL_DEBUG_SOURCE_API`, not one fewer. -/
theorem unrecognised_source_keeps_line :
    (0 : Nat) ∉ khronos.sources ∧ khronos.GL_DEBUG_SOURCE_API ∈ khronos.sources
      ∧ (1 : Nat) ∉ suppressedIds
      ∧ glDebugOutput khronos 0 khronos.GL_DEBUG_TYPE_ERROR 1 khronos.GL_DEBUG_SEVERITY_HIGH
          1 "m" 0 = "Debug message (m)\n\nType: Error\nSeverity: high\n"
      ∧ glDebugOutput khronos khronos.GL_DEBUG_SOURCE_API khronos.GL_DEBUG_TYPE_ERROR 1
          khronos.GL_DEBUG_SEVERITY_HIGH 1 "m" 0
          = "Debug message (m)\nSource: API\nType: Error\nSeverity: high\n"
      ∧ lineCount (glDebugOutput khronos 0 khronos.GL_DEBUG_TYPE_ERROR 1
          khronos.GL_DEBUG_SEVERITY_HIGH 1 "m" 0) = 4
      ∧ lineCount (glDebugOutput khronos khronos.GL_DEBUG_SOURCE_API khronos.GL_DEBUG_TYPE_ERROR 1
          khronos.GL_DEBUG_SEVERITY_HIGH 1 "m" 0) = 4
      ∧ ¬ (lineCount (glDebugOutput khronos 0 khronos.GL_DEBUG_TYPE_ERROR 1
            khronos.GL_DEBUG_SEVERITY_HIGH 1 "m" 0) + 1
          = lineCount (glDebugOutput khronos khronos.GL_DEBUG_SOURCE_API
            khronos.GL_DEBUG_TYPE_ERROR 1 khronos.GL_DEBUG_SEVERITY_HIGH 1 "m" 0)) := by
  decide

/-- C4, amended. For every id outside the suppression set, a source
(respectively type, severity) value that is none of the defined values of its
category has its label skipped but its line still written, as an empty line:
the output has the same number of lines as for any other value of that
category, recognised ones included, and the lines of the other two categories
are unchanged. -/
theorem glDebugOutput_unrecognised (H : DebugEnums) (source type id severity : Nat)
    (length : Int) (message : String) (userParam : Nat) (hid : id ∉ suppressedIds) :
    (source ∉ H.sources →
        glDebugOutput H source type id severity length message userParam
          = "Debug message (" ++ message ++ ")\n"
            ++ ("" ++ "\n" ++ printType H type ++ "\n" ++ printSeverity H severity ++ "\n")
        ∧ ∀ source', lineCount (glDebugOutput H source type id severity length message userParam)
            = lineCount (glDebugOutput H source' type id severity length message userParam))
      ∧ (type ∉ H.types →
        glDebugOutput H source type id severity length message userParam
          = "Debug message (" ++ message ++ ")\n"
            ++ (printSource H source ++ "\n" ++ "" ++ "\n" ++ printSeverity H severity ++ "\n")
        ∧ ∀ type', lineCount (glDebugOutput H source type id severity length message userParam)
            = lineCount (glDebugOutput H source type' id severity length message userParam))
      ∧ (severity ∉ H.severities →
        glDebugOutput H source type id severity length message userParam
          = "Debug message (" ++ message ++ ")\n"
            ++ (printSource H source ++ "\n" ++ printType H type ++ "\n" ++ "" ++ "\n")
        ∧ ∀ severity',
            lineCount (glDebugOutput H source type id severity length message userParam)
              = lineCount (glDebugOutput H source type id severity' length message
                  userParam)) := by
  refine ⟨fun h => ⟨?_, fun s' => ?_⟩, fun h => ⟨?_, fun t' => ?_⟩, fun h => ⟨?_, fun v' => ?_⟩⟩
  · rw [glDebugOutput_of_not_suppressed H source type id severity length message userParam hid,
      printSource_unrecognised H source h]
  · rw [lineCount_glDebugOutput H source type id severity length message userParam hid,
      lineCount_glDebugOutput H s' type id severity length message userParam hid]
  · rw [glDebugOutput_of_not_suppressed H source type id severity length message userParam hid,
      printType_unrecognised H type h]
  · rw [lineCount_glDebugOutput H source type id severity length message userParam hid,
      lineCount_glDebugOutput H source t' id severity length message userParam hid]
  · rw [glDebugOutput_of_not_suppressed H source type id severity length message userParam hid,
      printSeverity_unrecognised H severity h]
  · rw [lineCount_glDebugOutput H source type id severity length message userParam hid,
      lineCount_glDebugOutput H source type id v' length message userParam hid]

theorem glDebugOutput_unrecognised_witness :
    (2 : Nat) ∉ suppressedIds ∧ (0 : Nat) ∉ khronos.sources ∧ (0 : Nat) ∉ khronos.types
      ∧ (0 : Nat) ∉ khronos.severities
      ∧ glDebugOutput khronos 0 0 2 0 0 "lost" 0
          = "Debug message (" ++ "lost" ++ ")\n"
            ++ ("" ++ "\n" ++ printType khronos 0 ++ "\n" ++ printSeverity khronos 0 ++ "\n")
      ∧ glDebugOutput khronos 0 0 2 0 0 "lost" 0 = "Debug message (lost)\n\n\n\n" :=
  ⟨by decide, by decide, by decide, by decide,
    ((glDebugOutput_unrecognised khronos 0 0 2 0 0 "lost" 0 (by decide)).1 (by decide)).1,
    by decide⟩
/-! ## Theorems: mesh data and attribute layout -/

/-- C5. `triangleVertices` has exactly 20 floats, 4 vertices of 5 floats each;
`indices` has exactly 6 entries, each in the range 0..3; read as consecutive
triples the two triangles are (0,1,2) and (2,1,3), and each triple consists of
3 pairwise distinct vertex indices. -/
theorem mesh_data_invariant :
    triangleVertices.length = 20
      ∧ triangleVertices.length = 4 * 5
      ∧ (∀ v < 4, (vertexAt v).length = 5)
      ∧ vertexAt 0 ++ vertexAt 1 ++ vertexAt 2 ++ vertexAt 3 = triangleVertices
      ∧ indices.length = 6
      ∧ (∀ i ∈ indices, 0 ≤ i ∧ i ≤ 3)
      ∧ triangles indices = [(0, 1, 2), (2, 1, 3)]
      ∧ (∀ t ∈ triangles indices, t.1 ≠ t.2.1 ∧ t.1 ≠ t.2.2 ∧ t.2.1 ≠ t.2.2) := by
  refine ⟨rfl, rfl, by decide, rfl, rfl, by decide, rfl, by decide⟩

/-! ## Theorems: the render loop -/

theorem renderLoop_closed (env : Env) (fuel n : Nat) :
    renderLoop env (fuel + 1) n true = some [.glfwWindowShouldClose .window] := by
  simp [renderLoop]

theorem renderLoop_open (env : Env) (fuel n : Nat) :
    renderLoop env (fuel + 1) n false
      = (renderLoop env fuel (n + 1) (loopBody env n false).2).map
          (fun rest => .glfwWindowShouldClose .window :: ((loopBody env n false).1 ++ rest)) := by
  rw [renderLoop]
  cases renderLoop env fuel (n + 1) (loopBody env n false).2 <;> simp

/-- More fuel does not change the calls of a loop that has ended. -/
theorem renderLoop_succ (env : Env) :
    ∀ (fuel n : Nat) (b : Bool) (l : List Call),
      renderLoop env fuel n b = some l → renderLoop env (fuel + 1) n b = some l
  | 0, _, _, _, h => by simp [renderLoop] at h
  | fuel + 1, n, true, l, h => by
    rw [renderLoop_closed] at h ⊢
    exact h
  | fuel + 1, n, false, l, h => by
    rw [renderLoop_open] at h ⊢
    cases hr : renderLoop env fuel (n + 1) (loopBody env n false).2 with
    | none => rw [hr] at h; simp at h
    | some rest =>
      rw [hr] at h
      rw [renderLoop_succ env fuel (n + 1) _ rest hr]
      exact h

theorem renderLoop_add (env : Env) (fuel n : Nat) (b : Bool) (l : List Call)
    (h : renderLoop env fuel n b = some l) :
    ∀ k, renderLoop env (fuel + k) n b = some l
  | 0 => h
  | k + 1 => renderLoop_succ env (fuel + k) n b l (renderLoop_add env fuel n b l h k)

/-- The calls of a loop that has ended do not depend on the fuel. -/
theorem renderLoop_unique (env : Env) (f f' n : Nat) (b : Bool) (l l' : List Call)
    (h : renderLoop env f n b = some l) (h' : renderLoop env f' n b = some l') : l = l' := by
  have h1 := renderLoop_add env f n b l h f'
  have h2 := renderLoop_add env f' n b l' h' f
  rw [Nat.add_comm] at h2
  rw [h1] at h2
  exact Option.some.inj h2

theorem loopBody_flag (env : Env) (n : Nat) (b : Bool) :
    (loopBody env n b).2 = (b || env.escapePressed n || env.closeRequested n) := by
  unfold loopBody processInputs
  cases b <;> cases env.escapePressed n <;> cases env.closeRequested n <;> rfl

/-- A loop whose close flag gets set `d` iterations from now ends within `d + 2`
evaluations of its condition. -/
theorem renderLoop_terminates (env : Env) :
    ∀ (d n : Nat) (b : Bool),
      (env.escapePressed (n + d) = true ∨ env.closeRequested (n + d) = true) →
      ∃ l, renderLoop env (d + 2) n b = some l
  | _, _, true, _ => ⟨_, renderLoop_closed env _ _⟩
  | 0, n, false, h => by
    have hflag : (loopBody env n false).2 = true := by
      rw [loopBody_flag]
      rcases h with h | h <;> simp at h <;> simp [h]
    rw [renderLoop_open, hflag, renderLoop_closed]
    exact ⟨_, rfl⟩
  | d + 1, n, false, h => by
    have h' : env.escapePressed (n + 1 + d) = true ∨ env.closeRequested (n + 1 + d) = true := by
      have e : n + 1 + d = n + (d + 1) := by omega
      rw [e]
      exact h
    obtain ⟨l, hl⟩ := renderLoop_terminates env d (n + 1) (loopBody env n false).2 h'
    rw [renderLoop_open, hl]
    exact ⟨_, rfl⟩

theorem renderLoop_inRenderLoop (env : Env) :
    ∀ (fuel n : Nat) (b : Bool) (l : List Call),
      renderLoop env fuel n b = some l → ∀ c ∈ l, c.inRenderLoop = true
  | 0, _, _, _, h => by simp [renderLoop] at h
  | fuel + 1, n, true, l, h => by
    rw [renderLoop_closed] at h
    cases h
    intro c hc
    simp only [List.mem_singleton] at hc
    subst hc
    rfl
  | fuel + 1, n, false, l, h => by
    rw [renderLoop_open] at h
    cases hr : renderLoop env fuel (n + 1) (loopBody env n false).2 with
    | none => rw [hr] at h; simp at h
    | some rest =>
      rw [hr] at h
      cases h
      intro c hc
      simp only [List.mem_cons, List.mem_append] at hc
      rcases hc with rfl | hc | hc
      · rfl
      · unfold loopBody processInputs at hc
        cases he : env.escapePressed n <;> rw [he] at hc <;>
          simp only [Bool.false_eq_true, if_false, if_true, List.cons_append, List.nil_append,
            List.mem_cons, List.mem_singleton, List.not_mem_nil, or_false] at hc <;>
          rcases hc with rfl | rfl | rfl | rfl | rfl | rfl <;> rfl
      · exact renderLoop_inRenderLoop env fuel (n + 1) _ rest hr c hc

/-- A classification that ignores the calls of the render loop finds nothing
in them. -/
theorem filterMap_loop {β : Type} (f : Call → Option β)
    (hf : ∀ c, c.inRenderLoop = true → f c = none) :
    ∀ l : List Call, (∀ c ∈ l, c.inRenderLoop = true) → l.filterMap f = []
  | [], _ => rfl
  | c :: l, h => by
    rw [List.filterMap_cons, hf c (h c (List.mem_cons_self c l))]
    exact filterMap_loop f hf l (fun c' hc' => h c' (List.mem_cons_of_mem c hc'))

theorem attrib_loop (c : Call) (h : c.inRenderLoop = true) : c.attrib? = none := by
  cases c <;> first | rfl | cases h

theorem step_loop (c : Call) (h : c.inRenderLoop = true) : c.step? = none := by
  cases c <;> first | rfl | cases h

theorem acquires_loop (c : Call) (h : c.inRenderLoop = true) : c.acquires = none := by
  cases c <;> first | rfl | cases h

theorem releases_loop (c : Call) (h : c.inRenderLoop = true) : c.releases = none := by
  cases c <;> first | rfl | cases h
/-! ## Theorems: the bootstrap -/

/-- The seven answers decide the first failing step, in program order. -/
theorem firstFailure_cases (env : Env) :
    (env.glfwInit = false ∧ firstFailure env = some .glfwInit)
      ∨ (env.glfwInit = true ∧ env.glfwCreateWindow = false
          ∧ firstFailure env = some .glfwCreateWindow)
      ∨ (env.glfwInit = true ∧ env.glfwCreateWindow = true ∧ env.gladLoadGLLoader = false
          ∧ firstFailure env = some .gladLoadGLLoader)
      ∨ (env.glfwInit = true ∧ env.glfwCreateWindow = true ∧ env.gladLoadGLLoader = true
          ∧ env.vertexCompileStatus = false ∧ firstFailure env = some .vertexCompile)
      ∨ (env.glfwInit = true ∧ env.glfwCreateWindow = true ∧ env.gladLoadGLLoader = true
          ∧ env.vertexCompileStatus = true ∧ env.fragmentCompileStatus = false
          ∧ firstFailure env = some .fragmentCompile)
      ∨ (env.glfwInit = true ∧ env.glfwCreateWindow = true ∧ env.gladLoadGLLoader = true
          ∧ env.vertexCompileStatus = true ∧ env.fragmentCompileStatus = true
          ∧ env.linkStatus = false ∧ firstFailure env = some .link)
      ∨ (env.glfwInit = true ∧ env.glfwCreateWindow = true ∧ env.gladLoadGLLoader = true
          ∧ env.vertexCompileStatus = true ∧ env.fragmentCompileStatus = true
          ∧ env.linkStatus = true ∧ env.validateStatus = false
          ∧ firstFailure env = some .validate)
      ∨ (env.glfwInit = true ∧ env.glfwCreateWindow = true ∧ env.gladLoadGLLoader = true
          ∧ env.vertexCompileStatus = true ∧ env.fragmentCompileStatus = true
          ∧ env.linkStatus = true ∧ env.validateStatus = true ∧ firstFailure env = none) := by
  unfold firstFailure Step.all
  cases h1 : env.glfwInit <;> cases h2 : env.glfwCreateWindow <;>
    cases h3 : env.gladLoadGLLoader <;> cases h4 : env.vertexCompileStatus <;>
    cases h5 : env.fragmentCompileStatus <;> cases h6 : env.linkStatus <;>
    cases h7 : env.validateStatus <;>
    simp [List.find?, Env.succeeds, h1, h2, h3, h4, h5, h6, h7]

/-- A run in which no step fails: everything up to the loop, the loop, and
the teardown, with status 0. -/
theorem main_of_ok (env : Env) (fuel : Nat) (h : firstFailure env = none) :
    main env fuel = (renderLoop env fuel 0 false).map
      (fun loop => ⟨bootstrapCalls env ++ vertexSetup ++ loop ++ teardown, 0⟩) := by
  rcases firstFailure_cases env with h' | h' | h' | h' | h' | h' | h' | h'
  all_goals first
    | (rw [h] at h'; simp at h'; done)
    | (obtain ⟨h1, h2, h3, h4, h5, h6, h7, -⟩ := h'
       unfold main bootstrapCalls init_glfw
       simp only [h1, h2, h3, h4, h5, h6, h7, Bool.not_true, Bool.false_eq_true, if_false]
       cases renderLoop env fuel 0 false <;> simp)

theorem stepsAttempted_bootstrap_aux (env : Env) :
    (bootstrapCalls env).filterMap Call.step? = Step.all := by
  unfold bootstrapCalls init_glfw windowSetup globalConfig
  cases env.glfwInit <;> cases env.DEBUG <;> cases env.debugBit <;> rfl

theorem exists_of_elim {P : Run → Prop} (o : Option Run) (h : o.elim False P) :
    ∃ r, o = some r ∧ P r := by
  cases o with
  | none => exact h.elim
  | some r => exact ⟨r, rfl, h⟩

/-- A run with a failing step: it ends whatever the fuel, with a non-zero
status, having gone through the steps up to the failing one and without any
call of the render loop. -/
theorem main_of_failure (env : Env) (k : Step) (hE : env.EXIT_FAILURE ≠ 0)
    (h : firstFailure env = some k) :
    (∀ fuel, main env fuel = main env 0)
      ∧ ∃ r, main env 0 = some r ∧ r.status ≠ 0
          ∧ stepsAttempted r.calls = Step.all.take (k.index + 1)
          ∧ (∀ c ∈ r.calls, c.inRenderLoop = false) := by
  rcases firstFailure_cases env with h' | h' | h' | h' | h' | h' | h' | h'
  case inr.inr.inr.inr.inr.inr.inr =>
    rw [h'.2.2.2.2.2.2.2] at h
    cases h
  case inl =>
    obtain ⟨h1, hk⟩ := h'
    rw [h] at hk
    cases hk
    refine ⟨fun fuel => ?_, exists_of_elim _ ?_⟩
    · unfold main init_glfw
      simp only [h1, Bool.not_false, if_true]
    · unfold main init_glfw
      simp only [h1, Bool.not_false, if_true, Option.elim]
      refine ⟨hE, rfl, ?_⟩
      intro c hc
      simp only [List.mem_cons, List.mem_singleton, List.not_mem_nil, or_false] at hc
      rcases hc with rfl | rfl | rfl <;> rfl
  all_goals
    simp only [h, Option.some.injEq] at h'
    casesm* _ ∧ _
    subst_vars
    refine ⟨fun fuel => ?_, exists_of_elim _ ?_⟩
    · unfold main init_glfw
      simp only [*, Bool.not_true, Bool.not_false, Bool.false_eq_true, if_false, if_true]
    · unfold main init_glfw
      simp only [*, Bool.not_true, Bool.not_false, Bool.false_eq_true, if_false, if_true,
        Option.elim]
      refine ⟨by decide, ?_, ?_⟩
      · unfold stepsAttempted
        try unfold windowSetup
        try unfold globalConfig
        cases env.DEBUG <;> cases env.debugBit <;> rfl
      · intro c hc
        have hall : ∀ l : List Call, l.all (fun c => !c.inRenderLoop) = true →
            ∀ c ∈ l, c.inRenderLoop = false := by
          intro l hl c hc
          have := List.all_eq_true.mp hl c hc
          simpa using this
        refine hall _ ?_ c hc
        try unfold windowSetup
        try unfold globalConfig
        cases env.DEBUG <;> cases env.debugBit <;> rfl

/-- Two environments with the same setting and the same first failing step
run alike: nothing a later step would answer, and nothing the user would do,
is looked at. -/
theorem main_failure_congr (e e' : Env) (k : Step) (hs : e.SameSetting e')
    (h : firstFailure e = some k) (h' : firstFailure e' = some k) (fuel fuel' : Nat) :
    main e' fuel' = main e fuel := by
  obtain ⟨s1, s2, s3, s4, s5, s6, s7, s8⟩ := hs
  rcases firstFailure_cases e with c | c | c | c | c | c | c | c
  all_goals simp only [h, Option.some.injEq, reduceCtorEq, and_false] at c
  all_goals
    try casesm* _ ∧ _
    subst_vars
    rcases firstFailure_cases e' with c' | c' | c' | c' | c' | c' | c' | c'
  all_goals try simp only [h', Option.some.injEq, reduceCtorEq, and_false, and_true] at c'
  all_goals
    try casesm* _ ∧ _
    unfold main init_glfw
    simp only [windowSetup, globalConfig, *, Bool.not_true, Bool.not_false, Bool.false_eq_true,
      if_false, if_true]

theorem firstFailure_none_iff (env : Env) :
    firstFailure env = none ↔ ∀ s, env.succeeds s = true := by
  constructor
  · intro h s
    rcases firstFailure_cases env with c | c | c | c | c | c | c | c
    all_goals try (rw [h] at c; simp only [reduceCtorEq, and_false] at c; done)
    obtain ⟨h1, h2, h3, h4, h5, h6, h7, -⟩ := c
    cases s <;> assumption
  · intro h
    rcases firstFailure_cases env with c | c | c | c | c | c | c | c
    · have := h .glfwInit; rw [Env.succeeds, c.1] at this; cases this
    · have := h .glfwCreateWindow; rw [Env.succeeds, c.2.1] at this; cases this
    · have := h .gladLoadGLLoader; rw [Env.succeeds, c.2.2.1] at this; cases this
    · have := h .vertexCompile; rw [Env.succeeds, c.2.2.2.1] at this; cases this
    · have := h .fragmentCompile; rw [Env.succeeds, c.2.2.2.2.1] at this; cases this
    · have := h .link; rw [Env.succeeds, c.2.2.2.2.2.1] at this; cases this
    · have := h .validate; rw [Env.succeeds, c.2.2.2.2.2.2.1] at this; cases this
    · exact c.2.2.2.2.2.2.2

/-- C7. With every fallible backend call an arbitrary success or failure and
the close flag eventually set, `main` ends, and its exit status is 0 if and
only if none of the seven steps fails.  If a step fails the status is
non-zero, the run went through the steps up to the first failing one and
through no later step, it made no call of the render loop, and it is the same
run whatever the later steps would have answered. -/
theorem main_exit_status (env : Env) (hE : env.EXIT_FAILURE ≠ 0)
    (hclose : env.EventuallyCloses) :
    ∃ fuel r, main env fuel = some r
      ∧ (∀ fuel' r', main env fuel' = some r' → r' = r)
      ∧ (r.status = 0 ↔ ∀ s, env.succeeds s = true)
      ∧ (r.status = 0 ↔ firstFailure env = none)
      ∧ (firstFailure env = none → stepsAttempted r.calls = Step.all)
      ∧ (∀ k, firstFailure env = some k →
          r.status ≠ 0
            ∧ stepsAttempted r.calls = Step.all.take (k.index + 1)
            ∧ (∀ c ∈ r.calls, c.inRenderLoop = false)
            ∧ ∀ env', env.SameSetting env' → firstFailure env' = some k →
                ∀ fuel', main env' fuel' = some r) := by
  cases hff : firstFailure env with
  | none =>
    obtain ⟨n, hn⟩ := hclose
    obtain ⟨l, hl⟩ := renderLoop_terminates env n 0 false (by simpa using hn)
    have hmain := main_of_ok env (n + 2) hff
    rw [hl] at hmain
    refine ⟨n + 2, _, hmain, ?_, ?_, ?_, ?_, ?_⟩
    · intro fuel' r' hr'
      rw [main_of_ok env fuel' hff] at hr'
      cases hl' : renderLoop env fuel' 0 false with
      | none => rw [hl'] at hr'; simp at hr'
      | some l' =>
        rw [hl'] at hr'
        have := renderLoop_unique env _ _ 0 false l l' hl hl'
        subst this
        exact (Option.some.inj hr').symm
    · exact ⟨fun _ => (firstFailure_none_iff env).mp hff, fun _ => rfl⟩
    · exact ⟨fun _ => rfl, fun _ => rfl⟩
    · intro _
      have hloop := filterMap_loop Call.step? step_loop l
        (renderLoop_inRenderLoop env _ 0 false l hl)
      show stepsAttempted (bootstrapCalls env ++ vertexSetup ++ l ++ teardown) = Step.all
      unfold stepsAttempted at *
      rw [List.filterMap_append, List.filterMap_append, List.filterMap_append, hloop,
        stepsAttempted_bootstrap_aux env]
      rfl
    · intro k hk
      cases hk
  | some k =>
    obtain ⟨hfuel, r, hr, hst, hsteps, hno⟩ := main_of_failure env k hE hff
    refine ⟨0, r, hr, ?_, ?_, ?_, ?_, ?_⟩
    · intro fuel' r' hr'
      rw [hfuel fuel', hr] at hr'
      exact (Option.some.inj hr').symm
    · constructor
      · intro h0
        exact absurd h0 hst
      · intro hall
        rw [(firstFailure_none_iff env).mpr hall] at hff
        cases hff
    · constructor
      · intro h0
        exact absurd h0 hst
      · intro h
        cases h
    · intro h
      cases h
    · intro k' hk'
      cases hk'
      refine ⟨hst, hsteps, hno, ?_⟩
      intro env' hs' hk' fuel'
      rw [main_failure_congr env env' _ hs' hff hk' 0 fuel']
      exact hr

theorem main_exit_status_witness :
    sampleEnv.EXIT_FAILURE ≠ 0 ∧ sampleEnv.EventuallyCloses
      ∧ ∃ fuel r, main sampleEnv fuel = some r
        ∧ (∀ fuel' r', main sampleEnv fuel' = some r' → r' = r)
        ∧ (r.status = 0 ↔ ∀ s, sampleEnv.succeeds s = true)
        ∧ (r.status = 0 ↔ firstFailure sampleEnv = none)
        ∧ (firstFailure sampleEnv = none → stepsAttempted r.calls = Step.all)
        ∧ (∀ k, firstFailure sampleEnv = some k →
            r.status ≠ 0
              ∧ stepsAttempted r.calls = Step.all.take (k.index + 1)
              ∧ (∀ c ∈ r.calls, c.inRenderLoop = false)
              ∧ ∀ env', sampleEnv.SameSetting env' → firstFailure env' = some k →
                  ∀ fuel', main env' fuel' = some r) :=
  ⟨by decide, ⟨1, Or.inl rfl⟩, main_exit_status sampleEnv (by decide) ⟨1, Or.inl rfl⟩⟩

/-- C6. With `sizeof(float)` = 4, the two `glVertexAttribPointer` calls of
`main` give attribute 0 (position) 2 components at byte offset 0 and attribute
1 (color) 3 components at byte offset 2 * sizeof(float) = 8, both with stride
5 * sizeof(float) = 20 bytes; the two fields tile one vertex exactly: the
position ends where the color begins, the color ends at the stride, and the
component counts sum to stride / sizeof(float) = 5, the number of floats per
vertex of `triangleVertices`. -/
theorem attribute_layout :
    vertexSetup.filterMap Call.attrib?
        = [⟨0, 2, 5 * sizeofGLfloat, 0⟩, ⟨1, 3, 5 * sizeofGLfloat, 2 * sizeofGLfloat⟩]
      ∧ (∀ env fuel r, firstFailure env = none → main env fuel = some r →
          r.calls.filterMap Call.attrib?
            = [⟨0, 2, 5 * sizeofGLfloat, 0⟩, ⟨1, 3, 5 * sizeofGLfloat, 2 * sizeofGLfloat⟩])
      ∧ sizeofGLfloat = 4 ∧ 5 * sizeofGLfloat = 20 ∧ 2 * sizeofGLfloat = 8
      ∧ 0 + 2 * sizeofGLfloat = 2 * sizeofGLfloat
      ∧ 2 * sizeofGLfloat + 3 * sizeofGLfloat = 5 * sizeofGLfloat
      ∧ 2 + 3 = 5 * sizeofGLfloat / sizeofGLfloat
      ∧ 5 * sizeofGLfloat / sizeofGLfloat = 5
      ∧ triangleVertices.length = 4 * (5 * sizeofGLfloat / sizeofGLfloat)
      ∧ (∀ v < 4, (vertexAt v).length = 2 + 3) := by
  refine ⟨rfl, ?_, rfl, rfl, rfl, rfl, rfl, rfl, rfl, rfl, by decide⟩
  intro env fuel r hok hr
  rw [main_of_ok env fuel hok] at hr
  cases hl : renderLoop env fuel 0 false with
  | none => rw [hl] at hr; simp at hr
  | some l =>
    rw [hl] at hr
    cases hr
    have hloop := filterMap_loop Call.attrib? attrib_loop l
      (renderLoop_inRenderLoop env _ 0 false l hl)
    have hboot : (bootstrapCalls env).filterMap Call.attrib? = [] := by
      unfold bootstrapCalls init_glfw windowSetup globalConfig
      cases env.glfwInit <;> cases env.DEBUG <;> cases env.debugBit <;> rfl
    show (bootstrapCalls env ++ vertexSetup ++ l ++ teardown).filterMap Call.attrib? = _
    rw [List.filterMap_append, List.filterMap_append, List.filterMap_append, hloop, hboot]
    rfl

/-! ## Theorems: one iteration of the render loop -/

/-- C8, as stated, fails: in the first iteration of the sample run the pending
events are processed (`glfwPollEvents`) before the frame is presented
(`glfwSwapBuffers`), not after it. -/
theorem loopBody_polls_before_swap :
    (loopBody sampleEnv 0 false).1
        = [.glfwGetKey .window .GLFW_KEY_ESCAPE, .glClear .GL_COLOR_BUFFER_BIT,
           .glDrawElements .GL_TRIANGLES 6 .GL_UNSIGNED_INT 0,
           .glfwPollEvents, .glfwSwapBuffers .window]
      ∧ (loopBody sampleEnv 0 false).1
        ≠ [.glfwGetKey .window .GLFW_KEY_ESCAPE, .glClear .GL_COLOR_BUFFER_BIT,
           .glDrawElements .GL_TRIANGLES 6 .GL_UNSIGNED_INT 0,
           .glfwSwapBuffers .window, .glfwPollEvents] := by
  constructor
  · rfl
  · simp [loopBody, processInputs, sampleEnv]

/-- C8, amended. Every iteration of the render loop that starts with the close
flag unset performs, in exactly this order: poll input (`processInputs`, which
reads the escape key and sets the close flag when it is pressed), clear the
color buffer, one indexed draw of 6 indices as triangles, process pending
OS/input events (`glfwPollEvents`), and only then present the frame
(`glfwSwapBuffers`). -/
theorem loop_iteration_order (env : Env) (n : Nat) :
    (loopBody env n false).1
        = (processInputs env n false).1
          ++ [.glClear .GL_COLOR_BUFFER_BIT,
              .glDrawElements .GL_TRIANGLES 6 .GL_UNSIGNED_INT 0,
              .glfwPollEvents, .glfwSwapBuffers .window]
      ∧ (processInputs env n false).1
        = (if env.escapePressed n
            then [.glfwGetKey .window .GLFW_KEY_ESCAPE, .glfwSetWindowShouldClose .window true]
            else [.glfwGetKey .window .GLFW_KEY_ESCAPE])
      ∧ ((processInputs env n false).2 = true ↔ env.escapePressed n = true)
      ∧ (∀ fuel l, renderLoop env (fuel + 1) n false = some l →
          ∃ rest, l = .glfwWindowShouldClose .window :: ((loopBody env n false).1 ++ rest)) := by
  refine ⟨rfl, ?_, ?_, ?_⟩
  · unfold processInputs
    cases env.escapePressed n <;> rfl
  · unfold processInputs
    cases env.escapePressed n <;> simp
  · intro fuel l hl
    rw [renderLoop_open] at hl
    cases hr : renderLoop env fuel (n + 1) (loopBody env n false).2 with
    | none => rw [hr] at hl; simp at hl
    | some rest =>
      rw [hr] at hl
      exact ⟨rest, (Option.some.inj hl).symm⟩

/-! ## Theorems: teardown -/

/-- C9, as stated, fails: at the end of the sample run the objects are held in
the acquisition order window, shader program, vertex array, vertex buffer,
index buffer, and the teardown releases them in the order vertex array, vertex
buffer, index buffer, shader program, window, which is not the reverse of the
acquisition order. -/
theorem teardown_not_reverse_acquisition :
    (main sampleEnv 3).map (fun r => r.calls.drop (r.calls.length - 6)) = some teardown
      ∧ (main sampleEnv 3).map (fun r => held (r.calls.take (r.calls.length - 6)))
        = some [.window, .shaderProgram, .VAO, .VBO, .EBO]
      ∧ teardown.filterMap Call.releases = [.VAO, .VBO, .EBO, .shaderProgram, .window]
      ∧ teardown.filterMap Call.releases
        ≠ ([.window, .shaderProgram, .VAO, .VBO, .EBO] : List Obj).reverse := by
  refine ⟨rfl, rfl, rfl, by decide⟩

/-- C9, amended. When no step fails and the close flag is eventually set,
`main` ends with the teardown: it releases the vertex array object, the vertex
buffer, the index buffer, the shader program and the window, in this order
(the three mesh objects in the order of their acquisition, then the program,
then the window), each of the five objects held at loop exit exactly once,
and the windowing library is shut down last. -/
theorem teardown_order (env : Env) (hok : firstFailure env = none)
    (hclose : env.EventuallyCloses) :
    ∃ fuel r pre, main env fuel = some r
      ∧ r.calls = pre ++ teardown
      ∧ held pre = [.window, .shaderProgram, .VAO, .VBO, .EBO]
      ∧ pre.filterMap Call.releases = [.vertexShader, .fragmentShader]
      ∧ teardown.filterMap Call.releases = [.VAO, .VBO, .EBO, .shaderProgram, .window]
      ∧ (∀ o ∈ held pre, (r.calls.filterMap Call.releases).count o = 1)
      ∧ (∃ before, r.calls = before ++ [.glfwTerminate]
          ∧ before.filterMap Call.releases = r.calls.filterMap Call.releases) := by
  obtain ⟨n, hn⟩ := hclose
  obtain ⟨l, hl⟩ := renderLoop_terminates env n 0 false (by simpa using hn)
  have hmain := main_of_ok env (n + 2) hok
  rw [hl] at hmain
  have hin := renderLoop_inRenderLoop env _ 0 false l hl
  have hacqL := filterMap_loop Call.acquires acquires_loop l hin
  have hrelL := filterMap_loop Call.releases releases_loop l hin
  have hacqB : (bootstrapCalls env).filterMap Call.acquires
      = [.window, .vertexShader, .fragmentShader, .shaderProgram] := by
    unfold bootstrapCalls init_glfw windowSetup globalConfig
    cases env.glfwInit <;> cases env.DEBUG <;> cases env.debugBit <;> rfl
  have hrelB : (bootstrapCalls env).filterMap Call.releases = [] := by
    unfold bootstrapCalls init_glfw windowSetup globalConfig
    cases env.glfwInit <;> cases env.DEBUG <;> cases env.debugBit <;> rfl
  have hacq : (bootstrapCalls env ++ vertexSetup ++ l).filterMap Call.acquires
      = [.window, .vertexShader, .fragmentShader, .shaderProgram, .VAO, .VBO, .EBO] := by
    rw [List.filterMap_append, List.filterMap_append, hacqL, hacqB]
    rfl
  have hrel : (bootstrapCalls env ++ vertexSetup ++ l).filterMap Call.releases
      = [.vertexShader, .fragmentShader] := by
    rw [List.filterMap_append, List.filterMap_append, hrelL, hrelB]
    rfl
  have hheld : held (bootstrapCalls env ++ vertexSetup ++ l)
      = [.window, .shaderProgram, .VAO, .VBO, .EBO] := by
    unfold held
    rw [hacq, hrel]
    decide
  have hall : (bootstrapCalls env ++ vertexSetup ++ l ++ teardown).filterMap Call.releases
      = [.vertexShader, .fragmentShader, .VAO, .VBO, .EBO, .shaderProgram, .window] := by
    rw [List.filterMap_append, hrel]
    rfl
  refine ⟨n + 2, _, bootstrapCalls env ++ vertexSetup ++ l, hmain, rfl, hheld, hrel, rfl, ?_, ?_⟩
  · rw [hheld]
    show ∀ o ∈ _, List.count o
      ((bootstrapCalls env ++ vertexSetup ++ l ++ teardown).filterMap Call.releases) = 1
    rw [hall]
    decide
  · refine ⟨bootstrapCalls env ++ vertexSetup ++ l ++ teardown.dropLast, ?_, ?_⟩
    · show bootstrapCalls env ++ vertexSetup ++ l ++ teardown = _
      rw [List.append_assoc _ teardown.dropLast]
      rfl
    · show _ = (bootstrapCalls env ++ vertexSetup ++ l ++ teardown).filterMap Call.releases
      rw [List.filterMap_append, List.filterMap_append _ teardown, hrel]
      rfl

theorem teardown_order_witness :
    firstFailure sampleEnv = none ∧ sampleEnv.EventuallyCloses
      ∧ ∃ fuel r pre, main sampleEnv fuel = some r
        ∧ r.calls = pre ++ teardown
        ∧ held pre = [.window, .shaderProgram, .VAO, .VBO, .EBO]
        ∧ pre.filterMap Call.releases = [.vertexShader, .fragmentShader]
        ∧ teardown.filterMap Call.releases = [.VAO, .VBO, .EBO, .shaderProgram, .window]
        ∧ (∀ o ∈ held pre, (r.calls.filterMap Call.releases).count o = 1)
        ∧ (∃ before, r.calls = before ++ [.glfwTerminate]
            ∧ before.filterMap Call.releases = r.calls.filterMap Call.releases) :=
  ⟨by decide, ⟨1, Or.inl rfl⟩, teardown_order sampleEnv (by decide) ⟨1, Or.inl rfl⟩⟩

/-! ## Theorems: the draw stays inside the uploaded buffers -/

/-- C10. With `sizeof(float)` = `sizeof(GLuint)` = 4, the draw call's count 6
at index-buffer offset 0 reads exactly the `indices.size() * 4` = 24 bytes
uploaded to the index buffer, and for every index `i` in `indices` and each of
the two attributes (offset 0 with 2 components, offset 8 with 3 components,
stride 20) the byte range from `offset + i * 20` to
`offset + i * 20 + components * 4` lies within the
`triangleVertices.size() * 4` = 80 bytes uploaded to the vertex buffer. -/
theorem draw_within_buffers :
    vertexSetup.filterMap (Call.upload? .GL_ELEMENT_ARRAY_BUFFER)
        = [(indices.length * sizeofGLuint, .indices)]
      ∧ indices.length * sizeofGLuint = 24
      ∧ vertexSetup.filterMap (Call.upload? .GL_ARRAY_BUFFER)
        = [(triangleVertices.length * sizeofGLfloat, .triangleVertices)]
      ∧ triangleVertices.length * sizeofGLfloat = 80
      ∧ (∀ env n b, (loopBody env n b).1.filterMap Call.draw? = [(6, 0)])
      ∧ 0 + 6 * sizeofGLuint = indices.length * sizeofGLuint
      ∧ indices.take 6 = indices
      ∧ vertexSetup.filterMap Call.attrib? = [⟨0, 2, 20, 0⟩, ⟨1, 3, 20, 8⟩]
      ∧ (∀ i ∈ indices.take 6, ∀ a ∈ vertexSetup.filterMap Call.attrib?,
          a.pointer + i * a.stride + a.size * sizeofGLfloat
            ≤ triangleVertices.length * sizeofGLfloat) := by
  refine ⟨rfl, rfl, rfl, rfl, ?_, rfl, rfl, rfl, by decide⟩
  intro env n b
  unfold loopBody processInputs
  cases env.escapePressed n <;> rfl

end CMakeOpenGLSetup
